import Mathlib

/-!
Shallow embedding of the ava-voicemail webhook server (src/server.js).

The server is four Express route handlers glued to external services
(Twilio, OpenAI, nodemailer).  We embed the observable behaviour of each
handler as a pure function from the request parameters and the outcomes of
the external calls (fetch responses, transcription result, model result)
to a result record: the HTTP status, the list of TwiML verbs emitted, the
list of e-mails whose sending is initiated, and the fetch attempt/delay
accounting of the retry loop.
-/

namespace Ava

/-! ### JavaScript string primitives, mirrored on `List Char` -/

/-- The whitespace class trimmed by JavaScript `String.prototype.trim`
(restricted to the ASCII part, which is all this server ever sees). -/
def jsWhitespace (c : Char) : Bool :=
  c = ' ' || c = '\t' || c = '\n' || c = '\r' || c = '\x0b' || c = '\x0c'

/-- JavaScript `s.trim()`. -/
def jsTrim (s : String) : String :=
  ⟨((s.data.dropWhile jsWhitespace).reverse.dropWhile jsWhitespace).reverse⟩

/-- Does the list start with the given pattern? -/
def beginsWith : List Char → List Char → Bool
  | [], _ => true
  | _ :: _, [] => false
  | n :: ns, c :: cs => n = c && beginsWith ns cs

/-- Split at the first occurrence of `sep` (a non-empty separator):
returns the text before it and the text after it, or `none` when `sep`
does not occur.  This is the primitive behind JavaScript
`String.prototype.split` with a string separator. -/
def splitFirst (sep : List Char) : List Char → Option (List Char × List Char)
  | [] => none
  | c :: cs =>
    if beginsWith sep (c :: cs) then some ([], (c :: cs).drop sep.length)
    else
      match splitFirst sep cs with
      | none => none
      | some (pre, post) => some (c :: pre, post)

/-- JavaScript `l.split(sep)[0]` for a non-empty `sep`: the chunk before
the first occurrence of `sep`, or all of `l` when `sep` does not occur. -/
def firstChunkBefore (sep : List Char) (l : List Char) : List Char :=
  match splitFirst sep l with
  | none => l
  | some (pre, _) => pre

/-- JavaScript `l.split(sep)[1]` for a non-empty `sep`: the chunk between
the first and the second occurrence of `sep` (to the end when `sep` occurs
only once), or `none` (JS `undefined`) when `sep` does not occur at all. -/
def secondChunk (sep : List Char) (l : List Char) : Option (List Char) :=
  match splitFirst sep l with
  | none => none
  | some (_, post) => some (firstChunkBefore sep post)

/-- Substring containment test, JavaScript `hay.includes(needle)`. -/
def containsSub (needle : List Char) : List Char → Bool
  | [] => beginsWith needle []
  | c :: cs => beginsWith needle (c :: cs) || containsSub needle cs

/-- Case-insensitive substring containment. -/
def containsCI (needle hay : List Char) : Bool :=
  containsSub (needle.map Char.toLower) (hay.map Char.toLower)

/-- JavaScript `s.substring(0, n)`. -/
def jsTake (n : Nat) (s : String) : String :=
  ⟨s.data.take n⟩

/-! ### TwiML verbs and e-mails -/

/-- The TwiML verbs the server emits.  A `gather` in this server always
wraps a single `say` prompt, so the prompt is inlined. -/
inductive TwimlVerb where
  | say (voice language text : String)
  | record (maxLength timeout : Nat) (transcribe : Bool) (action method : String)
  | gather (input : String) (timeout : Nat) (action method : String)
      (promptVoice promptLanguage promptText : String)
  | hangup
deriving DecidableEq

/-- An e-mail handed to the nodemailer transporter (from/to are both the
configured account and carry no information). -/
structure Email where
  subject : String
  html : String
deriving DecidableEq

/-- Result of a handler that does not fetch audio. -/
structure RouteResult where
  status : Nat
  verbs : List TwimlVerb
  emails : List Email
deriving DecidableEq

/-! ### The fetch-with-retry loop (src/server.js lines 125-158) -/

/-- Outcome of one call to `fetch`: either a response with a status and a
status text, or a transport-level error (the promise rejects). -/
inductive FetchOutcome where
  | resp (status : Nat) (statusText : String)
  | err (message : String)
deriving DecidableEq

/-- Final outcome of the whole retry loop: a successful response, or a
raised error carrying its message. -/
inductive FetchFinal where
  | ok (status : Nat) (statusText : String)
  | failed (message : String)
deriving DecidableEq

/-- `const maxRetries = 3`. -/
def maxRetries : Nat := 3

/-- `const retryDelayMs = 2000`. -/
def retryDelayMs : Nat := 2000

/-- The message of the error thrown for a non-ok response
(line 143): includes the status text and the status, not the attempt. -/
def fetchStatusError (status : Nat) (statusText : String) : String :=
  "Failed to fetch audio from Twilio URL: " ++ statusText ++
    " (Status: " ++ toString status ++ ")"

/-- Accounting of the retry loop: attempts made, the list of delays taken
(in milliseconds, in order), and the final outcome. -/
structure FetchResult where
  attempts : Nat
  delays : List Nat
  outcome : FetchFinal
deriving DecidableEq

/-- Prepend the current attempt and its retry delay to the accounting of
the remaining iterations. -/
def retryStep (r : FetchResult) : FetchResult :=
  ⟨r.attempts + 1, retryDelayMs :: r.delays, r.outcome⟩

/-- One iteration of the `for (let i = 0; i < maxRetries; i++)` loop, with
`remaining = maxRetries - i` iterations left.  A response that is neither
2xx nor a retriable 404 is thrown (line 143) but lands in the loop's own
`catch` (line 145), which retries on every non-final attempt; only on the
final attempt does the error propagate.  Exhausting the loop without a
`break` reaches the guard at lines 155-158. -/
def fetchLoopGo (responses : Nat → FetchOutcome) : Nat → Nat → FetchResult
  | _, 0 => ⟨0, [], .failed "Failed to fetch audio from Twilio after multiple retries."⟩
  | i, remaining + 1 =>
    match responses i with
    | .err msg =>
      if i < maxRetries - 1 then retryStep (fetchLoopGo responses (i + 1) remaining)
      else ⟨1, [], .failed msg⟩
    | .resp status statusText =>
      if 200 ≤ status ∧ status < 300 then ⟨1, [], .ok status statusText⟩
      else if status = 404 ∧ i < maxRetries - 1 then
        retryStep (fetchLoopGo responses (i + 1) remaining)
      else if i < maxRetries - 1 then
        retryStep (fetchLoopGo responses (i + 1) remaining)
      else ⟨1, [], .failed (fetchStatusError status statusText)⟩

/-- The whole retry loop, given the outcome of the fetch on each attempt
(attempt `i` sees `responses i`). -/
def fetchWithRetry (responses : Nat → FetchOutcome) : FetchResult :=
  fetchLoopGo responses 0 maxRetries

/-! ### The summary extraction (src/server.js line 226) -/

/-- The label split on at line 226. -/
def summaryLabel : List Char := "Summary: ".data

/-- The generic acknowledgment used when the extraction yields nothing. -/
def summaryFallback : String := "I have received your message."

/-- Line 226:
`aiAnalysis.split('Summary: ')[1]?.split('\n')[0] || "I have received your message."`.
`[1]` of the split is the chunk between the first and second occurrence of
the label (JS `undefined`, hence the fallback, when the label is absent);
`[0]` of the inner split is that chunk up to its first newline; the `||`
replaces an empty extraction by the fallback. -/
def summarySpeech (aiAnalysis : String) : String :=
  match secondChunk summaryLabel aiAnalysis.data with
  | none => summaryFallback
  | some chunk =>
    let firstLine := firstChunkBefore ['\n'] chunk
    if firstLine = [] then summaryFallback else ⟨firstLine⟩

/-! ### E-mail bodies (template literals of src/server.js) -/

/-- Subject of the success notification e-mail (line 205). -/
def successEmailSubject (transcriptionText : String) : String :=
  "New Voicemail from AVA: " ++ jsTake 50 transcriptionText ++ "..."

/-- Body of the success notification e-mail (lines 206-213). -/
def successEmailHtml (transcriptionText aiAnalysis recordingUrl : String) : String :=
  "\n        <p>You have a new voicemail from AVA!</p>\n        <h3>Original Transcription:</h3>\n        <p>" ++
  transcriptionText ++
  ("</p>\n        <h3>AI Analysis:</h3>\n        <pre>" ++ aiAnalysis ++
   "</pre>\n        <p>Listen to the original recording: <a href=\"" ++ recordingUrl ++
   "\">" ++ recordingUrl ++ "</a></p>\n      ")

/-- The success notification e-mail (lines 202-214). -/
def successEmail (transcriptionText aiAnalysis recordingUrl : String) : Email :=
  { subject := successEmailSubject transcriptionText,
    html := successEmailHtml transcriptionText aiAnalysis recordingUrl }

/-- The part of the error e-mail body before the interpolated
transcription text. -/
def errHtmlPre : String :=
  "\n        <p>An error occurred while processing a voicemail.</p>\n        <p>Original Transcription (if available): "

/-- The part of the error e-mail body after the interpolated
transcription text. -/
def errHtmlPost (errMessage recordingUrl : String) : String :=
  "</p>\n        <p>Error details: <pre>" ++ errMessage ++
    "</pre></p>\n        <p>Recording URL: <a href=\"" ++ recordingUrl ++
    "\">" ++ recordingUrl ++ "</a></p>\n      "

/-- Body of the error notification e-mail (lines 251-256), built from
whatever `transcriptionText` held when the exception was raised. -/
def errorEmailHtml (transcriptionText errMessage recordingUrl : String) : String :=
  errHtmlPre ++ transcriptionText ++ errHtmlPost errMessage recordingUrl

/-- The error notification e-mail (lines 247-257). -/
def errorEmail (transcriptionText errMessage recordingUrl : String) : Email :=
  { subject := "AVA Voicemail Error: Could not process message",
    html := errorEmailHtml transcriptionText errMessage recordingUrl }

/-- The part of the follow-up e-mail body before the interpolated speech
text. -/
def followupHtmlPre : String :=
  "\n        <p>Caller left a follow-up message with AVA:</p>\n        <h3>Follow-up:</h3>\n        <p>"

/-- The part of the follow-up e-mail body after the interpolated speech
text. -/
def followupHtmlPost : String :=
  "</p>\n        <p>This was in response to the voicemail you just received.</p>\n      "

/-- Body of the follow-up e-mail (lines 293-298). -/
def followupEmailHtml (speechResult : String) : String :=
  followupHtmlPre ++ speechResult ++ followupHtmlPost

/-- The follow-up e-mail (lines 289-299). -/
def followupEmail (speechResult : String) : Email :=
  { subject := "AVA Voicemail Follow-up: \"" ++ jsTake 50 speechResult ++ "...\"",
    html := followupEmailHtml speechResult }

/-! ### POST /voice (src/server.js lines 67-92) -/

/-- The greeting said by the `/voice` handler (lines 73-76). -/
def voiceGreeting : String := "Hello. This is a final test."

/-- The `/voice` handler: say the greeting, record with `maxLength: 60`,
`timeout: 5`, `transcribe: false`, posting the recording metadata to
`/recording-complete`; no side effects, status 200. -/
def voiceRoute : RouteResult :=
  { status := 200,
    verbs := [.say "alice" "en-US" voiceGreeting,
              .record 60 5 false "/recording-complete" "POST"],
    emails := [] }

/-! ### POST /recording-complete (src/server.js lines 96-270) -/

/-- Inputs of the recording-complete handler: the `RecordingUrl` body
parameter and the outcomes of the external calls.  `mailDeliveryFails`
says whether the nodemailer send invoked its callback with an error; the
sends are fire-and-forget, so the handler result must not depend on it. -/
structure RecordingInput where
  recordingUrl : Option String
  responses : Nat → FetchOutcome
  transcription : Except String String
  completion : Except String String
  mailDeliveryFails : Bool

/-- Result of the recording-complete handler, with the retry-loop
accounting exposed. -/
structure RecordingResult where
  status : Nat
  verbs : List TwimlVerb
  emails : List Email
  fetchAttempts : Nat
  fetchDelays : List Nat
deriving DecidableEq

/-- The apology said when no valid recording URL arrived (line 107). -/
def noRecordingApology : String :=
  "I apologize, but I didn\x27t receive a clear recording. Please try again later. Goodbye."

/-- The apology said on the error path (line 265). -/
def processingApology : String :=
  "I apologize, an error occurred while processing your message. Please try again later."

/-- Response of the validation failure path (lines 105-111): apology and
hangup, status 200, nothing fetched, no e-mail. -/
def invalidUrlResult : RecordingResult :=
  { status := 200,
    verbs := [.say "Polly.Kevin" "en-US" noRecordingApology, .hangup],
    emails := [],
    fetchAttempts := 0,
    fetchDelays := [] }

/-- Response of the catch block (lines 244-269): one error notification
e-mail, a fresh TwiML document with the apology and a hangup, status 500. -/
def errorResult (fr : FetchResult) (transcriptionText errMessage recordingUrl : String) :
    RecordingResult :=
  { status := 500,
    verbs := [.say "Polly.Kevin" "en-US" processingApology, .hangup],
    emails := [errorEmail transcriptionText errMessage recordingUrl],
    fetchAttempts := fr.attempts,
    fetchDelays := fr.delays }

/-- TwiML of the success path (lines 227-239): the spoken summary, a
speech gather chaining to `/handle-followup` with its prompt, the goodbye,
and the hangup. -/
def successVerbs (aiAnalysis : String) : List TwimlVerb :=
  [.say "Polly.Kevin" "en-US"
      ("Thank you for your message. Here is a summary: " ++ summarySpeech aiAnalysis ++ "."),
   .gather "speech" 5 "/handle-followup" "POST"
      "Polly.Kevin" "en-US" "Can I help with anything else regarding your message?",
   .say "Polly.Kevin" "en-US" "Goodbye.",
   .hangup]

/-- The `/recording-complete` handler.  `transcriptionText` defaults to
`"No transcription available."` (line 115) and is overwritten only when
the transcription call succeeds, so the error e-mail carries whichever
value was current when the exception was raised. -/
def recordingComplete (inp : RecordingInput) : RecordingResult :=
  match inp.recordingUrl with
  | none => invalidUrlResult
  | some recordingUrl =>
    if jsTrim recordingUrl = "" then invalidUrlResult
    else
      let fr := fetchWithRetry inp.responses
      match fr.outcome with
      | .failed msg => errorResult fr "No transcription available." msg recordingUrl
      | .ok _ _ =>
        match inp.transcription with
        | .error msg => errorResult fr "No transcription available." msg recordingUrl
        | .ok transcriptionText =>
          match inp.completion with
          | .error msg => errorResult fr transcriptionText msg recordingUrl
          | .ok aiAnalysis =>
            { status := 200,
              verbs := successVerbs aiAnalysis,
              emails := [successEmail transcriptionText aiAnalysis recordingUrl],
              fetchAttempts := fr.attempts,
              fetchDelays := fr.delays }

/-! ### POST /handle-followup (src/server.js lines 273-317) -/

/-- Inputs of the follow-up handler: the `SpeechResult` body parameter and
whether the fire-and-forget e-mail send later fails. -/
structure FollowupInput where
  speechResult : Option String
  mailDeliveryFails : Bool

/-- The acknowledgment said when a follow-up was understood (line 309). -/
def followupAck (speechResult : String) : String :=
  "You said: \"" ++ speechResult ++
    "\". I will pass this additional information along to Alex. Thank you."

/-- The message said when nothing usable was heard (line 311). -/
def didNotCatch : String :=
  "I didn\x27t catch that. If you have more questions, please call back."

/-- The `/handle-followup` handler: on non-blank speech, send the
follow-up e-mail and acknowledge; otherwise apologize; always hang up,
always status 200. -/
def handleFollowup (inp : FollowupInput) : RouteResult :=
  match inp.speechResult with
  | some s =>
    if jsTrim s = "" then
      { status := 200, verbs := [.say "Polly.Kevin" "en-US" didNotCatch, .hangup], emails := [] }
    else
      { status := 200,
        verbs := [.say "Polly.Kevin" "en-US" (followupAck s), .hangup],
        emails := [followupEmail s] }
  | none =>
    { status := 200, verbs := [.say "Polly.Kevin" "en-US" didNotCatch, .hangup], emails := [] }

/-! ### POST /transcription -/

/-- The `/transcription` endpoint as it stands in src/server.js (lines
322-328): it only logs and acknowledges with an empty TwiML document. -/
def transcriptionStubRoute : RouteResult :=
  { status := 200, verbs := [], emails := [] }

/-- Modelled from the spec: the provider-side-transcription variant's
notification decision is not under src/ (the `/transcription` endpoint in
src/server.js is the logging stub above).  Per the spec, that variant asks
the model whether the message is spam and suppresses the notification
e-mail exactly when the model's response text contains "spam" as a
case-insensitive substring; otherwise it sends the one notification
e-mail.  It responds with a bare success status, no markup. -/
def transcriptionVariantRoute (modelAnswer : String) (notification : Email) : RouteResult :=
  if containsCI "spam".data modelAnswer.data then
    { status := 200, verbs := [], emails := [] }
  else
    { status := 200, verbs := [], emails := [notification] }

/-- The extraction of the spoken summary as claim C9 words it: the text
strictly between the first occurrence of the label `"Summary: "` and the
next newline (to the end when there is no later newline), with the
fallback sentence whenever the label is absent or the extracted text is
empty.  Kept separately from `summarySpeech` so the two can be compared. -/
def claimedSummarySpeech (aiAnalysis : String) : String :=
  match splitFirst summaryLabel aiAnalysis.data with
  | none => summaryFallback
  | some (_, post) =>
    let firstLine := firstChunkBefore ['\n'] post
    if firstLine = [] then summaryFallback else ⟨firstLine⟩

/-! ### Concrete runs used to instantiate the theorems -/

/-- A run whose audio fetch sees a persistent 500. -/
def failingFetchInput : RecordingInput :=
  { recordingUrl := some "https://api.twilio.example/rec",
    responses := fun _ => FetchOutcome.resp 500 "Internal Server Error",
    transcription := Except.ok "hello",
    completion := Except.ok "Summary: ok\n",
    mailDeliveryFails := false }

/-- A run whose recording URL is blank. -/
def blankUrlInput : RecordingInput :=
  { recordingUrl := some "   ",
    responses := fun _ => FetchOutcome.resp 200 "OK",
    transcription := Except.ok "x",
    completion := Except.ok "y",
    mailDeliveryFails := false }

/-- A fully successful run. -/
def successRunInput : RecordingInput :=
  { recordingUrl := some "https://api.twilio.example/rec2",
    responses := fun _ => FetchOutcome.resp 200 "OK",
    transcription := Except.ok "Hi, this is Bob from Acme, please call me back.",
    completion := Except.ok "Summary: Bob from Acme asks for a callback.\nCaller Name: Bob",
    mailDeliveryFails := false }

/-- A run whose recording URL keeps answering 404 on every attempt. -/
def unavailableRecordingInput : RecordingInput :=
  { recordingUrl := some "https://api.twilio.example/rec3",
    responses := fun _ => FetchOutcome.resp 404 "Not Found",
    transcription := Except.ok "never reached",
    completion := Except.ok "never reached",
    mailDeliveryFails := false }

/-! ## Claim C1 -/

/-- Claim C1, as stated, is false on the code: on a response whose status
is non-2xx and non-404 (here a persistent 500), the retry loop performs 3
attempts, not 1 — the error thrown for the bad status at line 143 is
caught by the loop's own `catch` at line 145, which retries it like a
transport error on every non-final attempt. -/
theorem c1_counterexample :
    (fetchWithRetry (fun _ => FetchOutcome.resp 500 "Internal Server Error")).attempts = 3 ∧
    ¬(fetchWithRetry (fun _ => FetchOutcome.resp 500 "Internal Server Error")).attempts = 1 := by
  decide

/-- Claim C1 (amended): given a response whose status is non-2xx and
non-404 on every attempt, the helper does not stop after the first
attempt: the descriptive status error thrown at line 143 is caught by the
loop's own `catch` and retried after the fixed delay on each non-final
attempt, so the loop performs all 3 attempts with 2 delays and then
raises a descriptive failure that includes the final status text and
status code (but no attempt count). -/
theorem c1_server_error_is_retried (f : Nat → FetchOutcome)
    (s0 s1 s2 : Nat) (t0 t1 t2 : String)
    (h0 : f 0 = FetchOutcome.resp s0 t0) (hn0 : ¬(200 ≤ s0 ∧ s0 < 300)) (he0 : s0 ≠ 404)
    (h1 : f 1 = FetchOutcome.resp s1 t1) (hn1 : ¬(200 ≤ s1 ∧ s1 < 300)) (he1 : s1 ≠ 404)
    (h2 : f 2 = FetchOutcome.resp s2 t2) (hn2 : ¬(200 ≤ s2 ∧ s2 < 300)) (he2 : s2 ≠ 404) :
    fetchWithRetry f =
      ⟨3, [retryDelayMs, retryDelayMs], FetchFinal.failed (fetchStatusError s2 t2)⟩ := by
  simp [fetchWithRetry, fetchLoopGo, maxRetries, h0, h1, h2, hn0, hn1, hn2, he0, he1, he2,
    retryStep, retryDelayMs]

/-- Witness for C1 (amended) at the persistent-500 run. -/
theorem c1_server_error_is_retried_witness :
    fetchWithRetry (fun _ => FetchOutcome.resp 500 "Internal Server Error") =
      ⟨3, [retryDelayMs, retryDelayMs],
        FetchFinal.failed (fetchStatusError 500 "Internal Server Error")⟩ :=
  c1_server_error_is_retried (fun _ => FetchOutcome.resp 500 "Internal Server Error")
    500 500 500 "Internal Server Error" "Internal Server Error" "Internal Server Error"
    rfl (by decide) (by decide) rfl (by decide) (by decide) rfl (by decide) (by decide)

/-! ## Claim C2 -/

/-- Claim C2: for every k in {1,2,3}, if the first k-1 fetch responses
are 404 and the k-th is 2xx, the loop performs exactly k attempts with
k-1 fixed delays of `retryDelayMs` (2000 ms, i.e. 2 seconds) and returns
the k-th response; if all 3 responses are 404, it performs exactly 3
attempts and raises. -/
theorem c2_fetch_retry_schedule :
    (∀ (f : Nat → FetchOutcome) (k s : Nat) (t : String), 1 ≤ k → k ≤ 3 →
        (∀ i, i < k - 1 → ∃ u, f i = FetchOutcome.resp 404 u) →
        f (k - 1) = FetchOutcome.resp s t → 200 ≤ s → s < 300 →
        fetchWithRetry f =
          ⟨k, List.replicate (k - 1) retryDelayMs, FetchFinal.ok s t⟩) ∧
    (∀ (f : Nat → FetchOutcome) (u0 u1 u2 : String),
        f 0 = FetchOutcome.resp 404 u0 → f 1 = FetchOutcome.resp 404 u1 →
        f 2 = FetchOutcome.resp 404 u2 →
        fetchWithRetry f =
          ⟨3, [retryDelayMs, retryDelayMs], FetchFinal.failed (fetchStatusError 404 u2)⟩) := by
  constructor
  · intro f k s t hk1 hk3 h404 hok hs1 hs2
    interval_cases k
    · simp only [show (1:Nat) - 1 = 0 from rfl] at hok
      simp [fetchWithRetry, fetchLoopGo, maxRetries, hok, hs1, hs2, retryDelayMs]
    · obtain ⟨u0, h0⟩ := h404 0 (by omega)
      simp only [show (2:Nat) - 1 = 1 from rfl] at hok
      simp [fetchWithRetry, fetchLoopGo, maxRetries, h0, hok, hs1, hs2, retryStep,
        retryDelayMs]
    · obtain ⟨u0, h0⟩ := h404 0 (by omega)
      obtain ⟨u1, h1⟩ := h404 1 (by omega)
      simp only [show (3:Nat) - 1 = 2 from rfl] at hok
      simp [fetchWithRetry, fetchLoopGo, maxRetries, h0, h1, hok, hs1, hs2, retryStep,
        retryDelayMs]
  · intro f u0 u1 u2 h0 h1 h2
    simp [fetchWithRetry, fetchLoopGo, maxRetries, h0, h1, h2, retryStep, retryDelayMs]

/-- Witness for C2 at the run [404, 404, 200]. -/
theorem c2_fetch_retry_schedule_witness :
    fetchWithRetry
        (fun i => if i < 2 then FetchOutcome.resp 404 "Not Found" else FetchOutcome.resp 200 "OK") =
      ⟨3, List.replicate 2 retryDelayMs, FetchFinal.ok 200 "OK"⟩ :=
  c2_fetch_retry_schedule.1
    (fun i => if i < 2 then FetchOutcome.resp 404 "Not Found" else FetchOutcome.resp 200 "OK")
    3 200 "OK" (by decide) (by decide)
    (by intro i hi; exact ⟨"Not Found", by simp [show i < 2 from hi]⟩)
    (by decide) (by decide) (by decide)

/-! ## Claim C3 -/

/-- Claim C3: whenever the pipeline raises in steps 2-4 (fetch,
transcribe, summarize), the handler catches it, attempts exactly one
error-notification e-mail (whose sending is fire-and-forget: the result
never depends on whether the send fails), and returns a well-formed
response of an apology and a hangup with a non-2xx status (500). -/
theorem c3_failure_path (inp : RecordingInput) (url : String)
    (hurl : inp.recordingUrl = some url) (hblank : jsTrim url ≠ "")
    (hraise : (∃ e, (fetchWithRetry inp.responses).outcome = FetchFinal.failed e) ∨
              (∃ e, inp.transcription = Except.error e) ∨
              (∃ e, inp.completion = Except.error e)) :
    (recordingComplete inp).status = 500 ∧
    ¬(200 ≤ (recordingComplete inp).status ∧ (recordingComplete inp).status < 300) ∧
    (recordingComplete inp).verbs =
      [TwimlVerb.say "Polly.Kevin" "en-US" processingApology, TwimlVerb.hangup] ∧
    (recordingComplete inp).emails.length = 1 ∧
    (∀ m ∈ (recordingComplete inp).emails,
        m.subject = "AVA Voicemail Error: Could not process message") ∧
    (∀ b, recordingComplete { inp with mailDeliveryFails := b } = recordingComplete inp) := by
  obtain ⟨u, r, tr, co, mf⟩ := inp
  simp only at hurl
  subst hurl
  have hmail : ∀ b, recordingComplete ⟨some url, r, tr, co, b⟩ =
      recordingComplete ⟨some url, r, tr, co, mf⟩ := fun b => rfl
  simp only [recordingComplete, hblank, if_neg, ite_false]
  cases houtcome : (fetchWithRetry r).outcome with
  | failed e =>
    simp [houtcome, errorResult, errorEmail, hmail]
  | ok s t =>
    simp only [houtcome]
    cases tr with
    | error e => simp [errorResult, errorEmail, hmail]
    | ok ttext =>
      cases co with
      | error e => simp [errorResult, errorEmail, hmail]
      | ok ai =>
        exfalso
        rcases hraise with ⟨e, he⟩ | ⟨e, he⟩ | ⟨e, he⟩
        · rw [houtcome] at he; exact FetchFinal.noConfusion he
        · exact Except.noConfusion he
        · exact Except.noConfusion he

/-- Witness for C3 at the persistent-500 run. -/
theorem c3_failure_path_witness :
    (recordingComplete failingFetchInput).status = 500 ∧
    (recordingComplete failingFetchInput).verbs =
      [TwimlVerb.say "Polly.Kevin" "en-US" processingApology, TwimlVerb.hangup] ∧
    (recordingComplete failingFetchInput).emails.length = 1 := by
  have h := c3_failure_path failingFetchInput "https://api.twilio.example/rec" rfl
    (by decide) (Or.inl ⟨fetchStatusError 500 "Internal Server Error", rfl⟩)
  exact ⟨h.1, h.2.2.1, h.2.2.2.1⟩

/-! ## Claim C4 -/

/-- Claim C4: a missing or blank (empty after trimming) recording URL
short-circuits the handler to the apology-and-hangup response: no fetch
attempt is made, no e-mail is sent, and the status is 200, not a server
error. -/
theorem c4_blank_url_short_circuits (inp : RecordingInput)
    (h : inp.recordingUrl = none ∨ ∃ s, inp.recordingUrl = some s ∧ jsTrim s = "") :
    recordingComplete inp = invalidUrlResult ∧
    (recordingComplete inp).fetchAttempts = 0 ∧
    (recordingComplete inp).emails = [] ∧
    (recordingComplete inp).verbs =
      [TwimlVerb.say "Polly.Kevin" "en-US" noRecordingApology, TwimlVerb.hangup] ∧
    (recordingComplete inp).status = 200 := by
  have hmain : recordingComplete inp = invalidUrlResult := by
    rcases h with h | ⟨s, hs, ht⟩
    · simp [recordingComplete, h]
    · simp [recordingComplete, hs, ht]
  refine ⟨hmain, ?_, ?_, ?_, ?_⟩ <;> simp [hmain, invalidUrlResult]

/-- Witness for C4 at a whitespace-only recording URL. -/
theorem c4_blank_url_short_circuits_witness :
    recordingComplete blankUrlInput = invalidUrlResult ∧
    (recordingComplete blankUrlInput).fetchAttempts = 0 ∧
    (recordingComplete blankUrlInput).emails = [] ∧
    (recordingComplete blankUrlInput).status = 200 := by
  have h := c4_blank_url_short_circuits blankUrlInput (Or.inr ⟨"   ", rfl, by decide⟩)
  exact ⟨h.1, h.2.1, h.2.2.1, h.2.2.2.2⟩

/-! ## Claim C5 -/

/-- Claim C5: on a successful pipeline run the handler sends exactly one
notification e-mail and speaks a summary derived from the model output by
the split-on-"Summary: " extraction (with the generic fallback when the
label is absent), then opens a speech gather chaining to
`/handle-followup`, says goodbye, and hangs up. -/
theorem c5_success_path (inp : RecordingInput) (url ttext ai : String)
    (hurl : inp.recordingUrl = some url) (hblank : jsTrim url ≠ "")
    (hfetch : ∃ s t, (fetchWithRetry inp.responses).outcome = FetchFinal.ok s t)
    (htr : inp.transcription = Except.ok ttext)
    (hco : inp.completion = Except.ok ai) :
    (recordingComplete inp).emails = [successEmail ttext ai url] ∧
    (recordingComplete inp).emails.length = 1 ∧
    (recordingComplete inp).verbs =
      [TwimlVerb.say "Polly.Kevin" "en-US"
         ("Thank you for your message. Here is a summary: " ++ summarySpeech ai ++ "."),
       TwimlVerb.gather "speech" 5 "/handle-followup" "POST"
         "Polly.Kevin" "en-US" "Can I help with anything else regarding your message?",
       TwimlVerb.say "Polly.Kevin" "en-US" "Goodbye.",
       TwimlVerb.hangup] ∧
    (splitFirst summaryLabel ai.data = none → summarySpeech ai = summaryFallback) ∧
    (recordingComplete inp).status = 200 := by
  obtain ⟨s, t, hout⟩ := hfetch
  obtain ⟨u, r, tr, co, mf⟩ := inp
  simp only at hurl htr hco hout
  subst hurl htr hco
  have hred : recordingComplete ⟨some url, r, Except.ok ttext, Except.ok ai, mf⟩ =
      { status := 200, verbs := successVerbs ai,
        emails := [successEmail ttext ai url],
        fetchAttempts := (fetchWithRetry r).attempts,
        fetchDelays := (fetchWithRetry r).delays } := by
    simp only [recordingComplete, hblank, if_neg, ite_false, hout]
  rw [hred]
  refine ⟨rfl, rfl, by simp [successVerbs], ?_, rfl⟩
  intro hnone
  simp [summarySpeech, secondChunk, hnone]

/-- Witness for C5 at a fully successful run. -/
theorem c5_success_path_witness :
    (recordingComplete successRunInput).emails =
      [successEmail "Hi, this is Bob from Acme, please call me back."
        "Summary: Bob from Acme asks for a callback.\nCaller Name: Bob"
        "https://api.twilio.example/rec2"] ∧
    (recordingComplete successRunInput).emails.length = 1 ∧
    (recordingComplete successRunInput).verbs =
      [TwimlVerb.say "Polly.Kevin" "en-US"
         ("Thank you for your message. Here is a summary: " ++
           summarySpeech "Summary: Bob from Acme asks for a callback.\nCaller Name: Bob" ++ "."),
       TwimlVerb.gather "speech" 5 "/handle-followup" "POST"
         "Polly.Kevin" "en-US" "Can I help with anything else regarding your message?",
       TwimlVerb.say "Polly.Kevin" "en-US" "Goodbye.",
       TwimlVerb.hangup] ∧
    (recordingComplete successRunInput).status = 200 := by
  have h := c5_success_path successRunInput "https://api.twilio.example/rec2"
    "Hi, this is Bob from Acme, please call me back."
    "Summary: Bob from Acme asks for a callback.\nCaller Name: Bob"
    rfl (by decide) ⟨200, "OK", rfl⟩ rfl rfl
  exact ⟨h.1, h.2.1, h.2.2.1, h.2.2.2.2⟩

/-! ## Claim C6 -/

/-- Claim C6: the follow-up handler sends exactly one e-mail containing
the speech text and speaks the relay acknowledgment when the speech text
is present and non-blank; speaks the didn-not-catch message and sends no
e-mail when it is absent or blank; and ends the call in every branch. -/
theorem c6_followup_terminal (inp : FollowupInput) :
    (∀ s, inp.speechResult = some s → jsTrim s ≠ "" →
        (handleFollowup inp).emails = [followupEmail s] ∧
        (followupEmail s).html = followupHtmlPre ++ s ++ followupHtmlPost ∧
        (handleFollowup inp).verbs =
          [TwimlVerb.say "Polly.Kevin" "en-US" (followupAck s), TwimlVerb.hangup]) ∧
    ((inp.speechResult = none ∨ ∃ s, inp.speechResult = some s ∧ jsTrim s = "") →
        (handleFollowup inp).emails = [] ∧
        (handleFollowup inp).verbs =
          [TwimlVerb.say "Polly.Kevin" "en-US" didNotCatch, TwimlVerb.hangup]) ∧
    TwimlVerb.hangup ∈ (handleFollowup inp).verbs := by
  obtain ⟨sp, mf⟩ := inp
  refine ⟨?_, ?_, ?_⟩
  · intro s hs hns
    simp only at hs
    subst hs
    exact ⟨by simp [handleFollowup, hns], rfl, by simp [handleFollowup, hns]⟩
  · intro h
    rcases h with h | ⟨s, hs, ht⟩
    · simp only at h
      subst h
      simp [handleFollowup]
    · simp only at hs
      subst hs
      simp [handleFollowup, ht]
  · cases sp with
    | none => simp [handleFollowup]
    | some s =>
      by_cases ht : jsTrim s = ""
      · simp [handleFollowup, ht]
      · simp [handleFollowup, ht]

/-- Witness for C6: a non-blank follow-up and a blank one. -/
theorem c6_followup_terminal_witness :
    (handleFollowup ⟨some "Tell Alex the roof still leaks", false⟩).emails =
      [followupEmail "Tell Alex the roof still leaks"] ∧
    (followupEmail "Tell Alex the roof still leaks").html =
      followupHtmlPre ++ "Tell Alex the roof still leaks" ++ followupHtmlPost ∧
    (handleFollowup ⟨some "   ", true⟩).emails = [] ∧
    TwimlVerb.hangup ∈ (handleFollowup ⟨some "   ", true⟩).verbs := by
  have h1 := (c6_followup_terminal ⟨some "Tell Alex the roof still leaks", false⟩).1
    "Tell Alex the roof still leaks" rfl (by decide)
  have h2 := (c6_followup_terminal ⟨some "   ", true⟩).2.1 (Or.inr ⟨"   ", rfl, by decide⟩)
  have h3 := (c6_followup_terminal ⟨some "   ", true⟩).2.2
  exact ⟨h1.1, h1.2.1, h2.1, h3⟩

/-! ## Claim C7 -/

/-- Claim C7 (settled against the spec-modelled variant handler): when
the model's classification response contains "spam" case-insensitively,
no notification e-mail is sent; otherwise exactly the one notification
e-mail is sent. -/
theorem c7_spam_suppression (modelAnswer : String) (notification : Email) :
    (containsCI "spam".data modelAnswer.data = true →
        (transcriptionVariantRoute modelAnswer notification).emails = []) ∧
    (containsCI "spam".data modelAnswer.data = false →
        (transcriptionVariantRoute modelAnswer notification).emails = [notification]) := by
  constructor <;> intro h <;> simp [transcriptionVariantRoute, h]

/-- Witness for C7 at a spam answer and a non-spam answer. -/
theorem c7_spam_suppression_witness :
    (transcriptionVariantRoute "That message was Spam." ⟨"New Voicemail", "body"⟩).emails =
      [] ∧
    (transcriptionVariantRoute "A genuine roofing inquiry." ⟨"New Voicemail", "body"⟩).emails =
      [⟨"New Voicemail", "body"⟩] := by
  have h1 := (c7_spam_suppression "That message was Spam." ⟨"New Voicemail", "body"⟩).1
    (by decide)
  have h2 := (c7_spam_suppression "A genuine roofing inquiry." ⟨"New Voicemail", "body"⟩).2
    (by decide)
  exact ⟨h1, h2⟩

/-! ## Claim C8 -/

/-- Claim C8: the call-intake handler returns, with no side effects
beyond the response body, a greeting said in the configured voice and
locale followed by a record directive bounded at 60 seconds with a
5-second trailing-silence timeout, whose completion is POSTed to
`/recording-complete`. -/
theorem c8_call_intake :
    voiceRoute.status = 200 ∧ voiceRoute.emails = [] ∧
    voiceRoute.verbs =
      [TwimlVerb.say "alice" "en-US" voiceGreeting,
       TwimlVerb.record 60 5 false "/recording-complete" "POST"] :=
  ⟨rfl, rfl, rfl⟩

/-! ## Claim C9 -/

/-- Claim C9, as stated, is false on the code: on the model output
`"Summary: aSummary: b\nc"` the code speaks `"a"` — `split` cuts the
excerpt at the second occurrence of the label — while the text strictly
between the first occurrence of the label and the next newline is
`"aSummary: b"`. -/
theorem c9_counterexample :
    summarySpeech "Summary: aSummary: b\nc" = "a" ∧
    claimedSummarySpeech "Summary: aSummary: b\nc" = "aSummary: b" ∧
    ¬ summarySpeech "Summary: aSummary: b\nc" =
        claimedSummarySpeech "Summary: aSummary: b\nc" := by
  decide

/-- Claim C9 (amended): the claimed description is correct whenever the
label `"Summary: "` does not occur a second time after its first
occurrence (in particular, the fallback is spoken exactly when the label
is absent or the extracted text is empty); when the label re-occurs, the
spoken excerpt is instead truncated at the second occurrence. -/
theorem c9_single_label_extraction :
    (∀ s : String, splitFirst summaryLabel s.data = none →
        summarySpeech s = summaryFallback ∧ claimedSummarySpeech s = summaryFallback) ∧
    (∀ (s : String) (pre post : List Char),
        splitFirst summaryLabel s.data = some (pre, post) →
        splitFirst summaryLabel post = none →
        summarySpeech s = claimedSummarySpeech s) := by
  constructor
  · intro s h
    exact ⟨by simp [summarySpeech, secondChunk, h], by simp [claimedSummarySpeech, h]⟩
  · intro s pre post hsplit honce
    simp [summarySpeech, secondChunk, claimedSummarySpeech, hsplit, firstChunkBefore, honce]

/-- Witness for C9 (amended) at a model output with a single label. -/
theorem c9_single_label_extraction_witness :
    summarySpeech "Summary: The roof leaks.\nCaller Name: Bob" =
      claimedSummarySpeech "Summary: The roof leaks.\nCaller Name: Bob" :=
  c9_single_label_extraction.2 "Summary: The roof leaks.\nCaller Name: Bob"
    [] "The roof leaks.\nCaller Name: Bob".data (by decide) (by decide)

/-! ## Claim C10 -/

/-- Claim C10: when the pipeline raises before transcription succeeds
(the fetch fails after retries, or the transcription call itself fails),
the error-notification e-mail carries the literal placeholder
`"No transcription available."` in the transcription slot of its body. -/
theorem c10_error_email_placeholder :
    (∀ (inp : RecordingInput) (url e : String),
        inp.recordingUrl = some url → jsTrim url ≠ "" →
        (fetchWithRetry inp.responses).outcome = FetchFinal.failed e →
        (recordingComplete inp).emails =
          [errorEmail "No transcription available." e url] ∧
        (errorEmail "No transcription available." e url).html =
          errHtmlPre ++ "No transcription available." ++ errHtmlPost e url) ∧
    (∀ (inp : RecordingInput) (url e : String) (s : Nat) (t : String),
        inp.recordingUrl = some url → jsTrim url ≠ "" →
        (fetchWithRetry inp.responses).outcome = FetchFinal.ok s t →
        inp.transcription = Except.error e →
        (recordingComplete inp).emails =
          [errorEmail "No transcription available." e url] ∧
        (errorEmail "No transcription available." e url).html =
          errHtmlPre ++ "No transcription available." ++ errHtmlPost e url) := by
  constructor
  · intro inp url e hurl hblank hfail
    obtain ⟨u, r, tr, co, mf⟩ := inp
    simp only at hurl hfail
    subst hurl
    refine ⟨?_, rfl⟩
    simp only [recordingComplete, hblank, if_neg, ite_false, hfail]
    simp [errorResult]
  · intro inp url e s t hurl hblank hok htr
    obtain ⟨u, r, tr, co, mf⟩ := inp
    simp only at hurl hok htr
    subst hurl htr
    refine ⟨?_, rfl⟩
    simp only [recordingComplete, hblank, if_neg, ite_false, hok]
    simp [errorResult]

/-- Witness for C10 at a run whose recording URL keeps answering 404. -/
theorem c10_error_email_placeholder_witness :
    (recordingComplete unavailableRecordingInput).emails =
      [errorEmail "No transcription available." (fetchStatusError 404 "Not Found")
        "https://api.twilio.example/rec3"] ∧
    (errorEmail "No transcription available." (fetchStatusError 404 "Not Found")
        "https://api.twilio.example/rec3").html =
      errHtmlPre ++ "No transcription available." ++
        errHtmlPost (fetchStatusError 404 "Not Found") "https://api.twilio.example/rec3" :=
  c10_error_email_placeholder.1 unavailableRecordingInput "https://api.twilio.example/rec3"
    (fetchStatusError 404 "Not Found") rfl (by decide) rfl

end Ava
